import Mathlib

/-!
# Verification of the SVGCreator shape/document model

Shallow embedding of `src/svg.cpp` (namespace `Svg`): a small in-memory
builder for SVG documents.  Every definition below mirrors one entity of
the C++ source; member names keep the source's trailing-underscore
convention.

Numeric modelling: the source declares coordinates, radius and stroke
width as `double` and prints them with the default `ostream` formatting.
Every claim under verification involves only integer-valued coordinates,
which that formatting prints as a plain decimal integer with no decimal
point, so these fields are modelled as `Int` and printed with `toString`.
`Rgb` channels are `ushort` (16-bit unsigned) in the source and are
modelled as `Nat`; `Text::fontSize_` is `uint32_t`, also modelled as `Nat`.

Serializers: each C++ `operator<<` streams a sequence of pieces into the
output. We model a serializer as the list of those pieces (`chunks`, one
list element per attribute or fixed token, grouping the operands of the
consecutive `<<` calls that build one attribute) and the serialized string
as `String.join` of that list, which is exactly the concatenation the
stream receives.
-/

namespace SvgModel

/-- `Svg::Point`: `{x: double = 0.0, y: double = 0.0}` (integer-valued
coordinates modelled as `Int`, see header). -/
structure Point where
  x : Int := 0
  y : Int := 0
deriving DecidableEq, Repr

/-- `Svg::Rgb`: three `ushort` channels defaulting to 0. A `ushort` holds
values below 2^16; no clamping to 0–255 anywhere. -/
structure Rgb where
  red : Nat := 0
  green : Nat := 0
  blue : Nat := 0
deriving DecidableEq, Repr

/-- `operator<<(ostream&, const Rgb&)`: streams
`"rgb(" << red << ',' << green << ',' << blue << ")"`. -/
def Rgb.output (v : Rgb) : String :=
  "rgb(" ++ toString v.red ++ "," ++ toString v.green ++ "," ++ toString v.blue ++ ")"

/-- The payload of `variant<string, Rgb>` inside `Color`. -/
inductive ColorVal where
  | str : String → ColorVal
  | rgb : Rgb → ColorVal
deriving DecidableEq, Repr

/-- `Svg::Color`: wraps `optional<variant<string, Rgb>> color_`;
default-constructed `Color` has an empty optional. -/
structure Color where
  color_ : Option ColorVal := none
deriving DecidableEq, Repr

/-- `operator<<(ostream&, const Color&)`: visits the variant when the
optional holds a value, else streams `"none"`. -/
def Color.output (c : Color) : String :=
  match c.color_ with
  | some (ColorVal.str s) => s
  | some (ColorVal.rgb v) => v.output
  | none => "none"

/-- `static const Color NoneColor;` — the shared default color. -/
def NoneColor : Color := {}

/-- The protected members of `Figure<Derived>` shared by every shape:
`fillColor_`, `strokeColor_` (both `NoneColor`), `strokeWidth_` (1.0),
`strokeLineCap_`, `strokeLineJoin_` (both empty optionals). -/
structure StyleAttrs where
  fillColor_ : Color := NoneColor
  strokeColor_ : Color := NoneColor
  strokeWidth_ : Int := 1
  strokeLineCap_ : Option String := none
  strokeLineJoin_ : Option String := none
deriving DecidableEq, Repr

/-- `Figure<Derived>::SetFillColor(const Color&)` acting on the shared
members; each concrete shape's setter delegates here and returns the
updated shape (the C++ setter assigns the member and returns `*this`). -/
def StyleAttrs.setFillColor (s : StyleAttrs) (c : Color) : StyleAttrs :=
  { s with fillColor_ := c }

/-- `Figure<Derived>::SetFillColor(string)` — the overload constructs a
`Color` from the text. -/
def StyleAttrs.setFillColorStr (s : StyleAttrs) (c : String) : StyleAttrs :=
  { s with fillColor_ := { color_ := some (ColorVal.str c) } }

/-- `Figure<Derived>::SetStrokeColor(const Color&)`. -/
def StyleAttrs.setStrokeColor (s : StyleAttrs) (c : Color) : StyleAttrs :=
  { s with strokeColor_ := c }

/-- `Figure<Derived>::SetStrokeWidth(double)`. -/
def StyleAttrs.setStrokeWidth (s : StyleAttrs) (w : Int) : StyleAttrs :=
  { s with strokeWidth_ := w }

/-- `Figure<Derived>::SetStrokeLineCap(const string&)`. -/
def StyleAttrs.setStrokeLineCap (s : StyleAttrs) (v : String) : StyleAttrs :=
  { s with strokeLineCap_ := some v }

/-- `Figure<Derived>::SetStrokeLineJoin(const string)`. -/
def StyleAttrs.setStrokeLineJoin (s : StyleAttrs) (v : String) : StyleAttrs :=
  { s with strokeLineJoin_ := some v }

/-- The trailing part every shape serializer emits for the two optional
style members: `stroke-linecap="…" ` when set (else nothing), then
`stroke-linejoin="…" ` when set (else nothing). -/
def StyleAttrs.capChunks (s : StyleAttrs) : List String :=
  match s.strokeLineCap_ with
  | some v => ["stroke-linecap=\"" ++ v ++ "\" "]
  | none => []

/-- See `StyleAttrs.capChunks`; the `stroke-linejoin` conditional. -/
def StyleAttrs.joinChunks (s : StyleAttrs) : List String :=
  match s.strokeLineJoin_ with
  | some v => ["stroke-linejoin=\"" ++ v ++ "\" "]
  | none => []

/-- `Svg::Circle`. `Circle::Circle()` initializes `centerX_` and
`centerY_` to `0.0` **but leaves `radius_` uninitialized** (it is missing
from the constructor's initializer list). An uninitialized `double` holds
an indeterminate value; the model records that state in the extra flag
`radiusInit` (`false` = the C++ member was never written; the `Int` value
`0` stored alongside is only a model placeholder, not a value the C++
program guarantees). `SetRadius` writes the member and sets the flag. -/
structure Circle where
  style : StyleAttrs := {}
  centerX_ : Int := 0
  centerY_ : Int := 0
  radius_ : Int := 0
  radiusInit : Bool := false
deriving DecidableEq, Repr

/-- `Circle::SetCenter(Point)`. -/
def Circle.SetCenter (c : Circle) (p : Point) : Circle :=
  { c with centerX_ := p.x, centerY_ := p.y }

/-- `Circle::SetRadius(double)`. -/
def Circle.SetRadius (c : Circle) (r : Int) : Circle :=
  { c with radius_ := r, radiusInit := true }

/-- `Circle::SetFillColor` (inherited, returns `Circle&`). -/
def Circle.SetFillColor (c : Circle) (col : Color) : Circle :=
  { c with style := c.style.setFillColor col }

/-- `Circle::SetFillColor(string)` (inherited overload). -/
def Circle.SetFillColorStr (c : Circle) (col : String) : Circle :=
  { c with style := c.style.setFillColorStr col }

/-- `Circle::SetStrokeColor` (inherited). -/
def Circle.SetStrokeColor (c : Circle) (col : Color) : Circle :=
  { c with style := c.style.setStrokeColor col }

/-- `Circle::SetStrokeWidth` (inherited). -/
def Circle.SetStrokeWidth (c : Circle) (w : Int) : Circle :=
  { c with style := c.style.setStrokeWidth w }

/-- `Circle::SetStrokeLineCap` (inherited). -/
def Circle.SetStrokeLineCap (c : Circle) (v : String) : Circle :=
  { c with style := c.style.setStrokeLineCap v }

/-- `Circle::SetStrokeLineJoin` (inherited). -/
def Circle.SetStrokeLineJoin (c : Circle) (v : String) : Circle :=
  { c with style := c.style.setStrokeLineJoin v }

/-- `operator<<(ostream&, const Circle&)`, one list element per streamed
attribute: `<circle `, `cx`, `cy`, `r`, `fill`, `stroke`, `stroke-width`,
the two optional attributes, `/>`. -/
def Circle.chunks (c : Circle) : List String :=
  ["<circle ",
   "cx=\"" ++ toString c.centerX_ ++ "\" ",
   "cy=\"" ++ toString c.centerY_ ++ "\" ",
   "r=\"" ++ toString c.radius_ ++ "\" ",
   "fill=\"" ++ c.style.fillColor_.output ++ "\" ",
   "stroke=\"" ++ c.style.strokeColor_.output ++ "\" ",
   "stroke-width=\"" ++ toString c.style.strokeWidth_ ++ "\" "]
  ++ c.style.capChunks ++ c.style.joinChunks ++ ["/>"]

/-- The string `operator<<(ostream&, const Circle&)` writes. -/
def Circle.output (c : Circle) : String :=
  String.join c.chunks

/-- `Svg::Polyline`: `vector<Point> points_`, empty by default. -/
structure Polyline where
  style : StyleAttrs := {}
  points_ : List Point := []
deriving DecidableEq, Repr

/-- `Polyline::AddPoint(Point)`: `points_.push_back(...)`. -/
def Polyline.AddPoint (p : Polyline) (pt : Point) : Polyline :=
  { p with points_ := p.points_ ++ [pt] }

/-- `Polyline::SetFillColor` (inherited). -/
def Polyline.SetFillColor (p : Polyline) (col : Color) : Polyline :=
  { p with style := p.style.setFillColor col }

/-- `Polyline::SetFillColor(string)` (inherited overload). -/
def Polyline.SetFillColorStr (p : Polyline) (col : String) : Polyline :=
  { p with style := p.style.setFillColorStr col }

/-- `Polyline::SetStrokeColor` (inherited). -/
def Polyline.SetStrokeColor (p : Polyline) (col : Color) : Polyline :=
  { p with style := p.style.setStrokeColor col }

/-- `Polyline::SetStrokeWidth` (inherited). -/
def Polyline.SetStrokeWidth (p : Polyline) (w : Int) : Polyline :=
  { p with style := p.style.setStrokeWidth w }

/-- `Polyline::SetStrokeLineCap` (inherited). -/
def Polyline.SetStrokeLineCap (p : Polyline) (v : String) : Polyline :=
  { p with style := p.style.setStrokeLineCap v }

/-- `Polyline::SetStrokeLineJoin` (inherited). -/
def Polyline.SetStrokeLineJoin (p : Polyline) (v : String) : Polyline :=
  { p with style := p.style.setStrokeLineJoin v }

/-- The body of the `for` loop in `operator<<(ostream&, const Polyline&)`:
each point streams `x << "," << y << " "` into the `points` attribute,
accumulated left to right exactly as the loop runs. -/
def Polyline.pointsOut (pts : List Point) : String :=
  pts.foldl (fun acc pt => acc ++ (toString pt.x ++ "," ++ toString pt.y ++ " ")) ""

/-- `operator<<(ostream&, const Polyline&)` as its streamed pieces. -/
def Polyline.chunks (p : Polyline) : List String :=
  ["<polyline points=\"",
   Polyline.pointsOut p.points_,
   "\" ",
   "fill=\"" ++ p.style.fillColor_.output ++ "\" ",
   "stroke=\"" ++ p.style.strokeColor_.output ++ "\" ",
   "stroke-width=\"" ++ toString p.style.strokeWidth_ ++ "\" "]
  ++ p.style.capChunks ++ p.style.joinChunks ++ ["/>"]

/-- The string `operator<<(ostream&, const Polyline&)` writes. -/
def Polyline.output (p : Polyline) : String :=
  String.join p.chunks

/-- `Svg::Text`: anchor `point_`, `offset_`, `fontSize_ = 1`,
`fontFamily_` (empty optional), `data_` (empty string). -/
structure Text where
  style : StyleAttrs := {}
  point_ : Point := {}
  offset_ : Point := {}
  fontSize_ : Nat := 1
  fontFamily_ : Option String := none
  data_ : String := ""
deriving DecidableEq, Repr

/-- `Text::SetPoint(Point)`. -/
def Text.SetPoint (t : Text) (p : Point) : Text :=
  { t with point_ := p }

/-- `Text::SetOffset(Point)`. -/
def Text.SetOffset (t : Text) (p : Point) : Text :=
  { t with offset_ := p }

/-- `Text::SetFontSize(uint32_t)`. -/
def Text.SetFontSize (t : Text) (n : Nat) : Text :=
  { t with fontSize_ := n }

/-- `Text::SetFontFamily(const string&)`. -/
def Text.SetFontFamily (t : Text) (f : String) : Text :=
  { t with fontFamily_ := some f }

/-- `Text::SetData(const string&)`. -/
def Text.SetData (t : Text) (d : String) : Text :=
  { t with data_ := d }

/-- `Text::SetFillColor` (inherited). -/
def Text.SetFillColor (t : Text) (col : Color) : Text :=
  { t with style := t.style.setFillColor col }

/-- `Text::SetFillColor(string)` (inherited overload). -/
def Text.SetFillColorStr (t : Text) (col : String) : Text :=
  { t with style := t.style.setFillColorStr col }

/-- `Text::SetStrokeColor` (inherited). -/
def Text.SetStrokeColor (t : Text) (col : Color) : Text :=
  { t with style := t.style.setStrokeColor col }

/-- `Text::SetStrokeWidth` (inherited). -/
def Text.SetStrokeWidth (t : Text) (w : Int) : Text :=
  { t with style := t.style.setStrokeWidth w }

/-- `Text::SetStrokeLineCap` (inherited). -/
def Text.SetStrokeLineCap (t : Text) (v : String) : Text :=
  { t with style := t.style.setStrokeLineCap v }

/-- `Text::SetStrokeLineJoin` (inherited). -/
def Text.SetStrokeLineJoin (t : Text) (v : String) : Text :=
  { t with style := t.style.setStrokeLineJoin v }

/-- The conditional in `operator<<(ostream&, const Text&)` that emits the
font family: note the source writes it under the attribute name
`stroke-linejoin`, not `font-family`. -/
def Text.familyChunks (t : Text) : List String :=
  match t.fontFamily_ with
  | some v => ["stroke-linejoin=\"" ++ v ++ "\" "]
  | none => []

/-- `operator<<(ostream&, const Text&)` as its streamed pieces: `<text `,
`x`, `y`, `dx`, `dy`, `fill`, `stroke`, `font-size`, `stroke-width`, then
the font-family conditional (mislabeled `stroke-linejoin`), the
`stroke-linecap` conditional, the `stroke-linejoin` conditional, `>`, the
content, `</text>`. -/
def Text.chunks (t : Text) : List String :=
  ["<text ",
   "x=\"" ++ toString t.point_.x ++ "\" ",
   "y=\"" ++ toString t.point_.y ++ "\" ",
   "dx=\"" ++ toString t.offset_.x ++ "\" ",
   "dy=\"" ++ toString t.offset_.y ++ "\" ",
   "fill=\"" ++ t.style.fillColor_.output ++ "\" ",
   "stroke=\"" ++ t.style.strokeColor_.output ++ "\" ",
   "font-size=\"" ++ toString t.fontSize_ ++ "\" ",
   "stroke-width=\"" ++ toString t.style.strokeWidth_ ++ "\" "]
  ++ t.familyChunks ++ t.style.capChunks ++ t.style.joinChunks
  ++ [">", t.data_, "</text>"]

/-- The string `operator<<(ostream&, const Text&)` writes. -/
def Text.output (t : Text) : String :=
  String.join t.chunks

/-- The closed set of shapes a `Document` can own (the concrete types
behind `FigureInterface`). -/
inductive Shape where
  | circle : Circle → Shape
  | polyline : Polyline → Shape
  | text : Text → Shape
deriving DecidableEq, Repr

/-- `Figure<Derived>::print(ostream&)`: the virtual dispatch streams the
concrete shape via its `operator<<`. -/
def Shape.output : Shape → String
  | Shape.circle c => c.output
  | Shape.polyline p => p.output
  | Shape.text t => t.output

/-- `Svg::Document`: `vector<unique_ptr<FigureInterface>> figures_`,
empty on construction. -/
structure Document where
  figures_ : List Shape := []
deriving DecidableEq, Repr

/-- `Document::Add(T figure)`: `figures_.push_back(make_unique<T>(...))`. -/
def Document.Add (d : Document) (s : Shape) : Document :=
  { d with figures_ := d.figures_ ++ [s] }

/-- The `for` loop in `Document::Render`: each figure's `print` streams
its serialization into `out`, left to right. -/
def Document.renderBody (figs : List Shape) : String :=
  figs.foldl (fun acc f => acc ++ f.output) ""

/-- `Document::Render(ostream&)`: XML declaration, `<svg …>` root opener,
the figure loop, `</svg>`. -/
def Document.Render (d : Document) : String :=
  "<?xml version=\"1.0\" encoding=\"UTF-8\" ?>"
  ++ "<svg xmlns=\"http://www.w3.org/2000/svg\" version=\"1.1\">"
  ++ Document.renderBody d.figures_
  ++ "</svg>"

/-- `Figure<Derived>::print` is declared non-`const`, so in principle it
could mutate the figure; its body only streams `*this` through a `const`
reference, so the figure comes back unchanged. Modelled as a state-passing
call returning the (possibly updated) figure together with its output. -/
def Shape.printSt (s : Shape) : Shape × String :=
  (s, s.output)

/-- The `Render` loop with the figures' state threaded through each
`print` call, mirroring that `Render` works on the live `figures_`
vector. -/
def Document.printShapes : List Shape → List Shape × String
  | [] => ([], "")
  | f :: fs =>
    let pr := Shape.printSt f
    let rest := Document.printShapes fs
    (pr.1 :: rest.1, pr.2 ++ rest.2)

/-- `Document::Render` as a state-passing operation: returns the Document
as it stands after the call, together with the bytes written to the sink. -/
def Document.RenderSt (d : Document) : Document × String :=
  let pr := Document.printShapes d.figures_
  ({ figures_ := pr.1 },
   "<?xml version=\"1.0\" encoding=\"UTF-8\" ?>"
   ++ "<svg xmlns=\"http://www.w3.org/2000/svg\" version=\"1.1\">"
   ++ pr.2
   ++ "</svg>")

/-! ## Helper lemmas -/

/-- Prepending to a `String.join`. -/
theorem join_cons_eq (s : String) (l : List String) :
    String.join (s :: l) = s ++ String.join l := by
  apply String.ext
  simp

/-- Streaming pieces one by one into an accumulator is the accumulator
followed by the concatenation of all the pieces. -/
theorem foldl_append_eq_join {α : Type} (f : α → String) (l : List α) :
    ∀ acc : String, l.foldl (fun a x => a ++ f x) acc = acc ++ String.join (l.map f) := by
  induction l with
  | nil => intro acc; simp [String.join]
  | cons x xs ih =>
    intro acc
    simp only [List.foldl, List.map]
    rw [ih, join_cons_eq]
    apply String.ext
    simp

/-- The `Render` loop writes the concatenation of the figures'
serializations, in insertion order. -/
theorem renderBody_eq_join (figs : List SvgModel.Shape) :
    SvgModel.Document.renderBody figs = String.join (figs.map SvgModel.Shape.output) := by
  unfold SvgModel.Document.renderBody
  rw [foldl_append_eq_join]
  apply String.ext
  simp

/-! ## Claim theorems -/

/-- C4: a `Color` holding an RGB triple `(r,g,b)` renders exactly as
`rgb(r,g,b)`: the three channel values in decimal, comma-separated, no
spaces, and emitted as given — in particular a channel value above 255
(legal for the `ushort` fields) is printed unclamped, e.g. `rgb(300,7,0)`. -/
theorem claim_C4_rgb_output :
    (∀ r g b : Nat,
      Color.output { color_ := some (ColorVal.rgb { red := r, green := g, blue := b }) }
        = "rgb(" ++ toString r ++ "," ++ toString g ++ "," ++ toString b ++ ")") ∧
    Color.output { color_ := some (ColorVal.rgb { red := 300, green := 7, blue := 0 }) }
      = "rgb(300,7,0)" := by
  exact ⟨fun r g b => rfl, by decide⟩

/-- C6: rendering an empty `Document` produces exactly the XML
declaration immediately followed by the `<svg …>` opener and the
`</svg>` closer, with nothing in between. -/
theorem claim_C6_empty_document :
    Document.Render {} =
      "<?xml version=\"1.0\" encoding=\"UTF-8\" ?><svg xmlns=\"http://www.w3.org/2000/svg\" version=\"1.1\"></svg>" := by
  decide

/-- C5: the `points` attribute of a `Polyline` serialization is the
concatenation, in `AddPoint` insertion order, of `"x,y "` per point
(trailing space after every point, including the last); `AddPoint`
appends to the end of the point list; the list `[(50,50),(250,250)]`
yields the attribute value `"50,50 250,250 "` and the empty list yields
the empty attribute value. -/
theorem claim_C5_polyline_points :
    (∀ (p : Polyline) (pt : Point), (p.AddPoint pt).points_ = p.points_ ++ [pt]) ∧
    (∀ pts : List Point, Polyline.pointsOut pts
        = String.join (pts.map fun pt => toString pt.x ++ "," ++ toString pt.y ++ " ")) ∧
    (∀ p : Polyline, ∃ rest : String,
        p.output = "<polyline points=\""
          ++ String.join (p.points_.map fun pt => toString pt.x ++ "," ++ toString pt.y ++ " ")
          ++ ("\" " ++ rest)) ∧
    Polyline.pointsOut [{ x := 50, y := 50 }, { x := 250, y := 250 }] = "50,50 250,250 " ∧
    Polyline.pointsOut [] = "" := by
  have hpts : ∀ pts : List Point, Polyline.pointsOut pts
      = String.join (pts.map fun pt => toString pt.x ++ "," ++ toString pt.y ++ " ") := by
    intro pts
    unfold Polyline.pointsOut
    rw [foldl_append_eq_join]
    apply String.ext
    simp
  refine ⟨fun p pt => rfl, hpts, ?_, by decide, rfl⟩
  intro p
  refine ⟨String.join (["fill=\"" ++ p.style.fillColor_.output ++ "\" ",
    "stroke=\"" ++ p.style.strokeColor_.output ++ "\" ",
    "stroke-width=\"" ++ toString p.style.strokeWidth_ ++ "\" "]
    ++ p.style.capChunks ++ p.style.joinChunks ++ ["/>"]), ?_⟩
  rw [← hpts]
  apply String.ext
  simp [Polyline.output, Polyline.chunks]

/-- C1: `Document.Add` appends the shape at the end of the collection
(so the collection holds the shapes in the order they were passed), and
`Render` writes exactly the XML declaration, the `<svg …>` opener, each
owned shape's serialization in collection order, and `</svg>`, with
nothing else interleaved. -/
theorem claim_C1_render_order :
    (∀ (d : Document) (s : Shape), (d.Add s).figures_ = d.figures_ ++ [s]) ∧
    (∀ shapes : List Shape, (shapes.foldl Document.Add { figures_ := [] }).figures_ = shapes) ∧
    (∀ d : Document, d.Render
       = "<?xml version=\"1.0\" encoding=\"UTF-8\" ?>"
       ++ "<svg xmlns=\"http://www.w3.org/2000/svg\" version=\"1.1\">"
       ++ String.join (d.figures_.map Shape.output)
       ++ "</svg>") := by
  have hadd : ∀ (l init : List Shape),
      (l.foldl Document.Add { figures_ := init }).figures_ = init ++ l := by
    intro l
    induction l with
    | nil => intro init; simp
    | cons s ss ih =>
      intro init
      have : Document.Add { figures_ := init } s = { figures_ := init ++ [s] } := rfl
      simp [List.foldl, this, ih (init ++ [s])]
  refine ⟨fun d s => rfl, fun shapes => by simpa using hadd shapes [], fun d => ?_⟩
  simp [Document.Render, renderBody_eq_join]

/-- The state-passing `Render` leaves the `Document` unchanged and
writes exactly what the pure `Render` computes. -/
theorem RenderSt_spec (d : Document) : d.RenderSt = (d, d.Render) := by
  have hps : ∀ figs : List Shape,
      Document.printShapes figs = (figs, String.join (figs.map Shape.output)) := by
    intro figs
    induction figs with
    | nil => rfl
    | cons f fs ih => simp [Document.printShapes, Shape.printSt, ih, join_cons_eq]
  simp [Document.RenderSt, Document.Render, hps, renderBody_eq_join]

/-- C7: `Render` does not modify the `Document` (the state-passing model
returns it unchanged), so two successive `Render` calls with no
intervening mutation write byte-identical output. -/
theorem claim_C7_render_idempotent :
    (∀ d : Document, d.RenderSt = (d, d.Render)) ∧
    (∀ d : Document, (d.RenderSt).1 = d) ∧
    (∀ d : Document, (((d.RenderSt).1).RenderSt).2 = (d.RenderSt).2) := by
  refine ⟨RenderSt_spec, fun d => by rw [RenderSt_spec], fun d => by simp [RenderSt_spec]⟩

/-- One call in a chain of `Circle` setters (the six inherited style
setters plus `SetCenter` and `SetRadius`). -/
inductive CircleOp where
  | setFillColor : Color → CircleOp
  | setFillColorStr : String → CircleOp
  | setStrokeColor : Color → CircleOp
  | setStrokeWidth : Int → CircleOp
  | setStrokeLineCap : String → CircleOp
  | setStrokeLineJoin : String → CircleOp
  | setCenter : Point → CircleOp
  | setRadius : Int → CircleOp
deriving DecidableEq, Repr

/-- Running one `Circle` setter call on the receiver. -/
def CircleOp.apply : CircleOp → Circle → Circle
  | CircleOp.setFillColor col, c => c.SetFillColor col
  | CircleOp.setFillColorStr col, c => c.SetFillColorStr col
  | CircleOp.setStrokeColor col, c => c.SetStrokeColor col
  | CircleOp.setStrokeWidth w, c => c.SetStrokeWidth w
  | CircleOp.setStrokeLineCap v, c => c.SetStrokeLineCap v
  | CircleOp.setStrokeLineJoin v, c => c.SetStrokeLineJoin v
  | CircleOp.setCenter p, c => c.SetCenter p
  | CircleOp.setRadius r, c => c.SetRadius r

/-- A chain of `Circle` setter calls, applied left to right: each call
runs on the state the earlier calls produced, exactly as
`c.SetX(a).SetY(b)…` does on the single mutated instance. -/
def Circle.applyOps (c : Circle) (ops : List CircleOp) : Circle :=
  ops.foldl (fun s op => op.apply s) c

/-- One call in a chain of `Polyline` setters. -/
inductive PolylineOp where
  | setFillColor : Color → PolylineOp
  | setFillColorStr : String → PolylineOp
  | setStrokeColor : Color → PolylineOp
  | setStrokeWidth : Int → PolylineOp
  | setStrokeLineCap : String → PolylineOp
  | setStrokeLineJoin : String → PolylineOp
  | addPoint : Point → PolylineOp
deriving DecidableEq, Repr

/-- Running one `Polyline` setter call on the receiver. -/
def PolylineOp.apply : PolylineOp → Polyline → Polyline
  | PolylineOp.setFillColor col, p => p.SetFillColor col
  | PolylineOp.setFillColorStr col, p => p.SetFillColorStr col
  | PolylineOp.setStrokeColor col, p => p.SetStrokeColor col
  | PolylineOp.setStrokeWidth w, p => p.SetStrokeWidth w
  | PolylineOp.setStrokeLineCap v, p => p.SetStrokeLineCap v
  | PolylineOp.setStrokeLineJoin v, p => p.SetStrokeLineJoin v
  | PolylineOp.addPoint pt, p => p.AddPoint pt

/-- A chain of `Polyline` setter calls, applied left to right. -/
def Polyline.applyOps (p : Polyline) (ops : List PolylineOp) : Polyline :=
  ops.foldl (fun s op => op.apply s) p

/-- One call in a chain of `Text` setters. -/
inductive TextOp where
  | setFillColor : Color → TextOp
  | setFillColorStr : String → TextOp
  | setStrokeColor : Color → TextOp
  | setStrokeWidth : Int → TextOp
  | setStrokeLineCap : String → TextOp
  | setStrokeLineJoin : String → TextOp
  | setPoint : Point → TextOp
  | setOffset : Point → TextOp
  | setFontSize : Nat → TextOp
  | setFontFamily : String → TextOp
  | setData : String → TextOp
deriving DecidableEq, Repr

/-- Running one `Text` setter call on the receiver. -/
def TextOp.apply : TextOp → Text → Text
  | TextOp.setFillColor col, t => t.SetFillColor col
  | TextOp.setFillColorStr col, t => t.SetFillColorStr col
  | TextOp.setStrokeColor col, t => t.SetStrokeColor col
  | TextOp.setStrokeWidth w, t => t.SetStrokeWidth w
  | TextOp.setStrokeLineCap v, t => t.SetStrokeLineCap v
  | TextOp.setStrokeLineJoin v, t => t.SetStrokeLineJoin v
  | TextOp.setPoint p, t => t.SetPoint p
  | TextOp.setOffset p, t => t.SetOffset p
  | TextOp.setFontSize n, t => t.SetFontSize n
  | TextOp.setFontFamily f, t => t.SetFontFamily f
  | TextOp.setData d, t => t.SetData d

/-- A chain of `Text` setter calls, applied left to right. -/
def Text.applyOps (t : Text) (ops : List TextOp) : Text :=
  ops.foldl (fun s op => op.apply s) t

/-- C9: for every shape and every sequence of setter calls, the chained
form `shape.SetX(a).SetY(b)…` ends in the same state as performing the
calls sequentially on the shape — splitting a chain at any position
changes nothing, because every setter returns the mutated receiver
itself, and later calls observe the mutations of earlier calls (e.g.
after `c.SetRadius(r).SetCenter(p)` both the radius and the center hold
the values written earlier in the chain). -/
theorem claim_C9_chained_setters :
    (∀ (c : Circle) (ops1 ops2 : List CircleOp),
        c.applyOps (ops1 ++ ops2) = (c.applyOps ops1).applyOps ops2) ∧
    (∀ (p : Polyline) (ops1 ops2 : List PolylineOp),
        p.applyOps (ops1 ++ ops2) = (p.applyOps ops1).applyOps ops2) ∧
    (∀ (t : Text) (ops1 ops2 : List TextOp),
        t.applyOps (ops1 ++ ops2) = (t.applyOps ops1).applyOps ops2) ∧
    (∀ (c : Circle) (r : Int) (p : Point),
        ((c.SetRadius r).SetCenter p).radius_ = r
        ∧ ((c.SetRadius r).SetCenter p).centerX_ = p.x
        ∧ ((c.SetRadius r).SetCenter p).centerY_ = p.y) := by
  refine ⟨?_, ?_, ?_, fun c r p => ⟨rfl, rfl, rfl⟩⟩
  · intro c ops1 ops2; simp [Circle.applyOps, List.foldl_append]
  · intro p ops1 ops2; simp [Polyline.applyOps, List.foldl_append]
  · intro t ops1 ops2; simp [Text.applyOps, List.foldl_append]

/-- C3: a shape whose style was never touched serializes with the shared
attribute block reading `fill="none" stroke="none" stroke-width="1"`
(with Text's `font-size` interleaved before `stroke-width`, per its
template), and neither optional style attribute (`stroke-linecap`,
`stroke-linejoin`) is emitted: each variant's chunk list with the default
style is exactly the list below, which carries no chunk for either
conditional. -/
theorem claim_C3_default_style :
    (∀ (cx cy r : Int) (b : Bool),
       Circle.chunks { style := {}, centerX_ := cx, centerY_ := cy, radius_ := r, radiusInit := b }
         = ["<circle ",
            "cx=\"" ++ toString cx ++ "\" ",
            "cy=\"" ++ toString cy ++ "\" ",
            "r=\"" ++ toString r ++ "\" ",
            "fill=\"none\" ", "stroke=\"none\" ", "stroke-width=\"1\" ", "/>"]) ∧
    (∀ pts : List Point,
       Polyline.chunks { style := {}, points_ := pts }
         = ["<polyline points=\"", Polyline.pointsOut pts, "\" ",
            "fill=\"none\" ", "stroke=\"none\" ", "stroke-width=\"1\" ", "/>"]) ∧
    (∀ (p o : Point) (fs : Nat) (ff : Option String) (dat : String),
       Text.chunks { style := {}, point_ := p, offset_ := o, fontSize_ := fs,
                     fontFamily_ := ff, data_ := dat }
         = ["<text ",
            "x=\"" ++ toString p.x ++ "\" ",
            "y=\"" ++ toString p.y ++ "\" ",
            "dx=\"" ++ toString o.x ++ "\" ",
            "dy=\"" ++ toString o.y ++ "\" ",
            "fill=\"none\" ", "stroke=\"none\" ",
            "font-size=\"" ++ toString fs ++ "\" ", "stroke-width=\"1\" "]
           ++ (match ff with
               | some f => ["stroke-linejoin=\"" ++ f ++ "\" "]
               | none => [])
           ++ [">", dat, "</text>"]) := by
  exact ⟨fun cx cy r b => rfl, fun pts => rfl, fun p o fs ff dat => by cases ff <;> rfl⟩

/-- C2 counterexample: the claim asserts that when both `fontFamily` and
`strokeLineJoin` are set the attribute name `stroke-linejoin` appears
twice *with two different values*. Take a `Text` with
`fontFamily = "round"` and `strokeLineJoin = "round"`: the serializer
emits the attribute twice with the *same* value — the chunk
`stroke-linejoin="round" ` occurs twice, and the list of emitted
`stroke-linejoin` attributes holds two identical entries. -/
theorem claim_C2_counterexample :
    Text.chunks { style := { strokeLineJoin_ := some "round" }, fontFamily_ := some "round" }
      = ["<text ", "x=\"0\" ", "y=\"0\" ", "dx=\"0\" ", "dy=\"0\" ",
         "fill=\"none\" ", "stroke=\"none\" ", "font-size=\"1\" ", "stroke-width=\"1\" ",
         "stroke-linejoin=\"round\" ", "stroke-linejoin=\"round\" ",
         ">", "", "</text>"] ∧
    (Text.chunks { style := { strokeLineJoin_ := some "round" },
                   fontFamily_ := some "round" }).filter
        (fun ch => "stroke-linejoin=\"".data.isPrefixOf ch.data)
      = ["stroke-linejoin=\"round\" ", "stroke-linejoin=\"round\" "] := by
  exact ⟨by decide, by decide⟩

/-- C2 (amended): a `Text` with `fontFamily` set emits the font-family
value under the attribute name `stroke-linejoin`
(`stroke-linejoin="FAMILY" `), and if `strokeLineJoin` is also set the
attribute name `stroke-linejoin` appears twice: first with the font
family, then with the join style (the two values coincide exactly when
the family string equals the join string). -/
theorem claim_C2_family_under_linejoin (t : Text) (fam : String)
    (hf : t.fontFamily_ = some fam) :
    ("stroke-linejoin=\"" ++ fam ++ "\" ") ∈ t.chunks ∧
    ∀ j : String, t.style.strokeLineJoin_ = some j →
      List.Sublist ["stroke-linejoin=\"" ++ fam ++ "\" ",
                    "stroke-linejoin=\"" ++ j ++ "\" "] t.chunks := by
  constructor
  · simp [Text.chunks, Text.familyChunks, hf]
  · intro j hj
    show List.Sublist _ (_ ++ t.familyChunks ++ t.style.capChunks ++ t.style.joinChunks ++ _)
    rw [Text.familyChunks, hf, StyleAttrs.joinChunks, hj]
    simp only [List.append_assoc, List.cons_append, List.singleton_append, List.nil_append]
    refine List.Sublist.cons _ (List.Sublist.cons _ (List.Sublist.cons _
      (List.Sublist.cons _ (List.Sublist.cons _ (List.Sublist.cons _
      (List.Sublist.cons _ (List.Sublist.cons _ (List.Sublist.cons _
      (List.Sublist.cons₂ _ ?_)))))))))
    refine List.Sublist.trans ?_ (List.sublist_append_right t.style.capChunks _)
    exact List.Sublist.cons₂ _ (List.nil_sublist _)

/-- C2 witness: applying the amended theorem at a concrete `Text` with
font family `Verdana` and join style `round`. -/
theorem claim_C2_family_under_linejoin_witness :
    ("stroke-linejoin=\"Verdana\" "
       ∈ Text.chunks { style := { strokeLineJoin_ := some "round" },
                       fontFamily_ := some "Verdana" }) ∧
    List.Sublist ["stroke-linejoin=\"Verdana\" ", "stroke-linejoin=\"round\" "]
      (Text.chunks { style := { strokeLineJoin_ := some "round" },
                     fontFamily_ := some "Verdana" }) :=
  ⟨(claim_C2_family_under_linejoin
      { style := { strokeLineJoin_ := some "round" }, fontFamily_ := some "Verdana" }
      "Verdana" rfl).1,
   (claim_C2_family_under_linejoin
      { style := { strokeLineJoin_ := some "round" }, fontFamily_ := some "Verdana" }
      "Verdana" rfl).2 "round" rfl⟩

/-- C8 counterexample: the claim asserts every serialized shape includes
*all five* inherited style fields regardless of defaults. A `Circle`
with radius 5 and untouched style emits no `stroke-linecap` attribute at
all (no emitted chunk starts with `stroke-linecap="`), so the two
optional fields are omitted when unset. -/
theorem claim_C8_counterexample :
    (Circle.chunks (Circle.SetRadius {} 5)).filter
        (fun ch => "stroke-linecap=\"".data.isPrefixOf ch.data) = [] := by
  decide

/-- The shared style attributes in the fixed order the serializers give
them: `fill`, `stroke`, `stroke-width`, then `stroke-linecap` when set,
then `stroke-linejoin` when set. -/
def StyleAttrs.orderedChunks (s : StyleAttrs) : List String :=
  ["fill=\"" ++ s.fillColor_.output ++ "\" ",
   "stroke=\"" ++ s.strokeColor_.output ++ "\" ",
   "stroke-width=\"" ++ toString s.strokeWidth_ ++ "\" "]
  ++ s.capChunks ++ s.joinChunks

/-- C8 (amended): every variant's serialization contains the inherited
style attributes as a subsequence in one fixed relative order shared by
all variants — `fill`, `stroke`, `stroke-width`, then `stroke-linecap`
and `stroke-linejoin` in that order when they are set (they are omitted
when left at their default); `Text` interleaves its own `font-size` and
mislabeled font-family attributes among them without disturbing that
relative order. -/
theorem claim_C8_style_order :
    (∀ c : Circle, List.Sublist c.style.orderedChunks c.chunks) ∧
    (∀ p : Polyline, List.Sublist p.style.orderedChunks p.chunks) ∧
    (∀ t : Text, List.Sublist t.style.orderedChunks t.chunks) := by
  refine ⟨fun c => ?_, fun p => ?_, fun t => ?_⟩
  · show List.Sublist (_ ++ c.style.capChunks ++ c.style.joinChunks)
      (_ ++ c.style.capChunks ++ c.style.joinChunks ++ _)
    simp only [List.append_assoc, List.cons_append, List.singleton_append, List.nil_append]
    refine List.Sublist.cons _ (List.Sublist.cons _ (List.Sublist.cons _
      (List.Sublist.cons _ (List.Sublist.cons₂ _ (List.Sublist.cons₂ _
      (List.Sublist.cons₂ _ ?_))))))
    exact List.Sublist.append (List.Sublist.refl _) (List.sublist_append_left _ _)
  · show List.Sublist (_ ++ p.style.capChunks ++ p.style.joinChunks)
      (_ ++ p.style.capChunks ++ p.style.joinChunks ++ _)
    simp only [List.append_assoc, List.cons_append, List.singleton_append, List.nil_append]
    refine List.Sublist.cons _ (List.Sublist.cons _ (List.Sublist.cons _
      (List.Sublist.cons₂ _ (List.Sublist.cons₂ _ (List.Sublist.cons₂ _ ?_)))))
    exact List.Sublist.append (List.Sublist.refl _) (List.sublist_append_left _ _)
  · show List.Sublist (_ ++ t.style.capChunks ++ t.style.joinChunks)
      (_ ++ t.familyChunks ++ t.style.capChunks ++ t.style.joinChunks ++ _)
    simp only [List.append_assoc, List.cons_append, List.singleton_append, List.nil_append]
    refine List.Sublist.cons _ (List.Sublist.cons _ (List.Sublist.cons _
      (List.Sublist.cons _ (List.Sublist.cons _ (List.Sublist.cons₂ _
      (List.Sublist.cons₂ _ (List.Sublist.cons _ (List.Sublist.cons₂ _ ?_))))))))
    exact List.Sublist.trans
      (List.Sublist.append (List.Sublist.refl t.style.capChunks)
        (List.sublist_append_left t.style.joinChunks [">", t.data_, "</text>"]))
      (List.sublist_append_right t.familyChunks
        (t.style.capChunks ++ (t.style.joinChunks ++ [">", t.data_, "</text>"])))

/-- C10: `Circle::Circle()` initializes `centerX_` and `centerY_` to 0
but leaves `radius_` out of its initializer list, so a default `Circle`
holds an indeterminate radius (modelled by the `radiusInit` flag staying
`false` until `SetRadius` runs); serializing such a circle reads the
uninitialized `double`, so `r="0"` is not what the code guarantees. -/
theorem claim_C10_radius_uninitialized :
    ({} : Circle).centerX_ = 0 ∧ ({} : Circle).centerY_ = 0 ∧
    ({} : Circle).radiusInit = false ∧
    (Circle.SetRadius {} 6).radiusInit = true :=
  ⟨rfl, rfl, rfl, rfl⟩

end SvgModel
